import Mathlib

/-!
Shallow embedding of `src/index.ts` (class `BFTConsensus`).

Modelling choices, each noted at its definition:
* JS `Set<ValidatorId>` becomes `Finset String`; `Map<Hash, Set<ValidatorId>>`
  becomes a total function `String → Finset String` defaulting to `∅` (the code
  only ever reads a map entry after inserting an empty set when absent, so an
  absent key and an empty set are observationally identical).
* The network side effect `broadcast` is modelled by returning the list of
  messages a call emits, alongside the updated engine state.
* `Date.now()` is an external input, passed as an explicit parameter.
-/

/-- `type MessageType = "PREPARE" | "COMMIT" | "NEW_ROUND"` (index.ts line 5). -/
inductive MessageType where
  | PREPARE
  | COMMIT
  | NEW_ROUND
deriving DecidableEq, Repr

/-- `interface ConsensusMessage` (index.ts lines 22-28). Heights are `Nat`. -/
structure ConsensusMessage where
  type : MessageType
  blockHeight : Nat
  blockHash : String
  validatorId : String
  signature : String
deriving DecidableEq, Repr

/-- `interface Transaction` (index.ts lines 7-11); the `any` payload is opaque,
modelled as a string. -/
structure Transaction where
  id : String
  data : String
  signature : String
deriving DecidableEq, Repr

/-- `interface Block` (index.ts lines 13-20); the `signatures` map is an
association list (it is only ever created empty). -/
structure Block where
  height : Nat
  previousHash : String
  transactions : List Transaction
  timestamp : Nat
  proposer : String
  signatures : List (String × String)
deriving DecidableEq, Repr

/-- The mutable fields of `class BFTConsensus` (index.ts lines 30-36). -/
structure BFTConsensus where
  validators : Finset String
  prepareMessages : String → Finset String
  commitMessages : String → Finset String
  validatorId : String
  currentHeight : Nat
  requiredConsensus : Nat

/-- The constructor (index.ts lines 38-46): dedups the initial validator list,
starts at height 0, and fixes `requiredConsensus = floor(size*2/3)+1`. -/
def mkBFTConsensus (validatorId : String) (initialValidators : List String) :
    BFTConsensus :=
  let vs := initialValidators.toFinset
  { validators := vs
    prepareMessages := fun _ => ∅
    commitMessages := fun _ => ∅
    validatorId := validatorId
    currentHeight := 0
    requiredConsensus := vs.card * 2 / 3 + 1 }

/-- `verifyMessage` (index.ts lines 111-117): the placeholder only checks
validator-set membership; height and signature are never examined. -/
def BFTConsensus.verifyMessage (c : BFTConsensus) (m : ConsensusMessage) : Bool :=
  decide (m.validatorId ∈ c.validators)

/-- `getCurrentBlockHash` (index.ts lines 120-123): placeholder constant. -/
def BFTConsensus.getCurrentBlockHash (_ : BFTConsensus) : String :=
  "placeholder_hash"

/-- The `sign` placeholder (index.ts lines 152-155): constant regardless of
the data signed. -/
def BFTConsensus.sign (_ : BFTConsensus) : String :=
  "placeholder_signature"

/-- `broadcastPrepare` (index.ts lines 125-136): builds the PREPARE message
(note: its hash field is `getCurrentBlockHash()`, not the block's own hash)
and hands it to the network, i.e. emits it. -/
def BFTConsensus.broadcastPrepare (c : BFTConsensus) (b : Block) : ConsensusMessage :=
  { type := .PREPARE
    blockHeight := b.height
    blockHash := c.getCurrentBlockHash
    validatorId := c.validatorId
    signature := c.sign }

/-- `broadcastCommit` (index.ts lines 138-149). -/
def BFTConsensus.broadcastCommit (c : BFTConsensus) (blockHash : String) :
    ConsensusMessage :=
  { type := .COMMIT
    blockHeight := c.currentHeight + 1
    blockHash := blockHash
    validatorId := c.validatorId
    signature := c.sign }

/-- `finalizeBlock` (index.ts lines 163-179): increments the height, clears
both tallies, and broadcasts a NEW_ROUND for the (incremented) height + 1.
Its `blockHash` argument is unused in the source as well. -/
def BFTConsensus.finalizeBlock (c : BFTConsensus) (_blockHash : String) :
    BFTConsensus × List ConsensusMessage :=
  let c' := { c with
    currentHeight := c.currentHeight + 1
    prepareMessages := fun _ => ∅
    commitMessages := fun _ => ∅ }
  (c', [{ type := .NEW_ROUND
          blockHeight := c'.currentHeight + 1
          blockHash := ""
          validatorId := c'.validatorId
          signature := "" }])

/-- `handlePrepareMessage` (index.ts lines 78-92): after membership
verification, unconditionally adds the sender to the hash's prepare set, and
broadcasts a COMMIT whenever the set's size is at or above the threshold. -/
def BFTConsensus.handlePrepareMessage (c : BFTConsensus) (m : ConsensusMessage) :
    BFTConsensus × List ConsensusMessage :=
  if !c.verifyMessage m then (c, [])
  else
    let prepares := insert m.validatorId (c.prepareMessages m.blockHash)
    let c' := { c with
      prepareMessages := fun h =>
        if h = m.blockHash then prepares else c.prepareMessages h }
    if c.requiredConsensus ≤ prepares.card then
      (c', [c'.broadcastCommit m.blockHash])
    else (c', [])

/-- `handleCommitMessage` (index.ts lines 94-108): like the prepare handler,
but on reaching the threshold calls `finalizeBlock`. -/
def BFTConsensus.handleCommitMessage (c : BFTConsensus) (m : ConsensusMessage) :
    BFTConsensus × List ConsensusMessage :=
  if !c.verifyMessage m then (c, [])
  else
    let commits := insert m.validatorId (c.commitMessages m.blockHash)
    let c' := { c with
      commitMessages := fun h =>
        if h = m.blockHash then commits else c.commitMessages h }
    if c.requiredConsensus ≤ commits.card then
      c'.finalizeBlock m.blockHash
    else (c', [])

/-- `startNewRound` (index.ts lines 181-186): ignores heights at or below the
current one; otherwise clears both tallies. `currentHeight` is not touched. -/
def BFTConsensus.startNewRound (c : BFTConsensus) (height : Nat) :
    BFTConsensus × List ConsensusMessage :=
  if height ≤ c.currentHeight then (c, [])
  else
    ({ c with
        prepareMessages := fun _ => ∅
        commitMessages := fun _ => ∅ }, [])

/-- `handleConsensusMessage` (index.ts lines 64-76): dispatch on the message
type. NEW_ROUND goes straight to `startNewRound`, without `verifyMessage`. -/
def BFTConsensus.handleConsensusMessage (c : BFTConsensus) (m : ConsensusMessage) :
    BFTConsensus × List ConsensusMessage :=
  match m.type with
  | .PREPARE => c.handlePrepareMessage m
  | .COMMIT => c.handleCommitMessage m
  | .NEW_ROUND => c.startNewRound m.blockHeight

/-- `proposeBlock` (index.ts lines 49-61): builds the block, broadcasts a
PREPARE, and returns the block; the engine state is not mutated (the local
vote is only broadcast, never recorded in this node's own tally). -/
def BFTConsensus.proposeBlock (c : BFTConsensus) (transactions : List Transaction)
    (now : Nat) : BFTConsensus × Block × List ConsensusMessage :=
  let block : Block :=
    { height := c.currentHeight + 1
      previousHash := c.getCurrentBlockHash
      transactions := transactions
      timestamp := now
      proposer := c.validatorId
      signatures := [] }
  (c, block, [c.broadcastPrepare block])

/-- Accepted PREPARE: the resulting state adds the sender to the hash's
prepare set and changes nothing else (whether or not the quorum branch fires,
the state component is the same). -/
theorem handlePrepare_fst (c : BFTConsensus) (m : ConsensusMessage)
    (hv : m.validatorId ∈ c.validators) :
    (c.handlePrepareMessage m).1 =
      { c with prepareMessages := fun h =>
          if h = m.blockHash then insert m.validatorId (c.prepareMessages m.blockHash)
          else c.prepareMessages h } := by
  unfold BFTConsensus.handlePrepareMessage BFTConsensus.verifyMessage
  rw [decide_eq_true hv, Bool.not_true, if_neg Bool.false_ne_true]
  dsimp only
  split <;> rfl

/-- Rejected PREPARE: a sender outside the validator set changes nothing and
emits nothing. -/
theorem handlePrepare_not_member (c : BFTConsensus) (m : ConsensusMessage)
    (hnm : m.validatorId ∉ c.validators) :
    c.handlePrepareMessage m = (c, []) := by
  unfold BFTConsensus.handlePrepareMessage BFTConsensus.verifyMessage
  simp [hnm]

/-- Rejected COMMIT: a sender outside the validator set changes nothing and
emits nothing. -/
theorem handleCommit_not_member (c : BFTConsensus) (m : ConsensusMessage)
    (hnm : m.validatorId ∉ c.validators) :
    c.handleCommitMessage m = (c, []) := by
  unfold BFTConsensus.handleCommitMessage BFTConsensus.verifyMessage
  simp [hnm]

/-- Claim C4: the constructor's quorum threshold is `floor(2n/3)+1` for `n`
the number of distinct validator identities, and no message handling ever
changes `requiredConsensus`. -/
theorem C4_quorum_threshold (vid : String) (l : List String) (m : ConsensusMessage) :
    (mkBFTConsensus vid l).requiredConsensus = 2 * l.dedup.length / 3 + 1 ∧
    ∀ c : BFTConsensus,
      ((c.handleConsensusMessage m).1.requiredConsensus = c.requiredConsensus) := by
  constructor
  · simp [mkBFTConsensus, List.card_toFinset, Nat.mul_comm]
  · intro c
    unfold BFTConsensus.handleConsensusMessage
    cases m.type with
    | PREPARE =>
        simp only [BFTConsensus.handlePrepareMessage]
        split
        · rfl
        · split <;> rfl
    | COMMIT =>
        simp only [BFTConsensus.handleCommitMessage]
        split
        · rfl
        · split
          · rfl
          · rfl
    | NEW_ROUND =>
        simp only [BFTConsensus.startNewRound]
        split <;> rfl

/-- Claim C1 fails on the code: after "validator2" votes PREPARE for hash "A"
and then for a different hash "B" at the same phase, the second vote IS
recorded — "validator2" appears in B's prepare set — and no equivocation
event is emitted (the handler's output is empty). -/
theorem C1_counterexample :
    let c0 := mkBFTConsensus "validator1"
      ["validator1", "validator2", "validator3", "validator4"]
    let c1 := (c0.handlePrepareMessage ⟨.PREPARE, 1, "A", "validator2", "s"⟩).1
    let r2 := c1.handlePrepareMessage ⟨.PREPARE, 1, "B", "validator2", "s"⟩
    "validator2" ∈ c1.prepareMessages "A" ∧
    "validator2" ∈ r2.1.prepareMessages "B" ∧
    r2.2 = [] := by decide

/-- Claim C1 amended: a validator already recorded for hash `A` who then votes
PREPARE for a different hash `B` in the same phase ends up recorded in BOTH
tallies — the code performs no equivocation detection, and no equivocation
event exists to be reported. -/
theorem C1_equivocation_both_recorded (c : BFTConsensus) (v A B s : String)
    (n : Nat) (hmem : v ∈ c.validators) (hA : v ∈ c.prepareMessages A)
    (hAB : A ≠ B) :
    v ∈ (c.handlePrepareMessage ⟨.PREPARE, n, B, v, s⟩).1.prepareMessages A ∧
    v ∈ (c.handlePrepareMessage ⟨.PREPARE, n, B, v, s⟩).1.prepareMessages B := by
  rw [handlePrepare_fst c _ hmem]
  refine ⟨?_, ?_⟩ <;> simp [hAB, hA]

/-- Witness for C1's amended theorem at a concrete run. -/
theorem C1_witness :
    let c0 := mkBFTConsensus "validator1"
      ["validator1", "validator2", "validator3", "validator4"]
    let c1 := (c0.handlePrepareMessage ⟨.PREPARE, 1, "A", "validator2", "s"⟩).1
    "validator2" ∈
      (c1.handlePrepareMessage ⟨.PREPARE, 1, "B", "validator2", "s"⟩).1.prepareMessages "A" ∧
    "validator2" ∈
      (c1.handlePrepareMessage ⟨.PREPARE, 1, "B", "validator2", "s"⟩).1.prepareMessages "B" :=
  C1_equivocation_both_recorded _ "validator2" "A" "B" "s" 1
    (by decide) (by decide) (by decide)

/-- Claim C2 fails on the code: a node that has finalized up to height 1
still records a PREPARE vote carried by a message whose height field is 0,
i.e. strictly below the current height — the tally for hash "H" changes. -/
theorem C2_counterexample :
    let c0 := mkBFTConsensus "v1" ["v1", "v2", "v3", "v4"]
    let c3 := (((c0.handleCommitMessage ⟨.COMMIT, 1, "H", "v1", "s"⟩).1.handleCommitMessage
        ⟨.COMMIT, 1, "H", "v2", "s"⟩).1.handleCommitMessage
        ⟨.COMMIT, 1, "H", "v3", "s"⟩).1
    let r := c3.handleConsensusMessage ⟨.PREPARE, 0, "H", "v2", "s"⟩
    0 < c3.currentHeight ∧
    r.1.prepareMessages "H" ≠ c3.prepareMessages "H" := by decide

/-- Claim C2 amended: the PREPARE and COMMIT handlers never inspect the
message's height field — a message whose height is below the current height
is processed exactly like the same message at any other height, so its vote
is recorded rather than dropped. -/
theorem C2_height_ignored (c : BFTConsensus) (m : ConsensusMessage) (h : Nat) :
    c.handlePrepareMessage { m with blockHeight := h } = c.handlePrepareMessage m ∧
    c.handleCommitMessage { m with blockHeight := h } = c.handleCommitMessage m := by
  obtain ⟨t, bh, hs, v, s⟩ := m
  exact ⟨rfl, rfl⟩

/-- Claim C3 fails on the code: with threshold 3, the third accepted PREPARE
for hash "H" emits a COMMIT, and a fourth distinct validator's PREPARE emits
a second, identical COMMIT. -/
theorem C3_counterexample :
    let c0 := mkBFTConsensus "validator1"
      ["validator1", "validator2", "validator3", "validator4"]
    let c2 := ((c0.handlePrepareMessage ⟨.PREPARE, 1, "H", "validator1", "s"⟩).1.handlePrepareMessage
        ⟨.PREPARE, 1, "H", "validator2", "s"⟩).1
    let r3 := c2.handlePrepareMessage ⟨.PREPARE, 1, "H", "validator3", "s"⟩
    let r4 := r3.1.handlePrepareMessage ⟨.PREPARE, 1, "H", "validator4", "s"⟩
    r3.2 = [⟨.COMMIT, 1, "H", "validator1", "placeholder_signature"⟩] ∧
    r4.2 = [⟨.COMMIT, 1, "H", "validator1", "placeholder_signature"⟩] := by decide

/-- Claim C3 amended: the COMMIT side effect fires on EVERY accepted PREPARE
that leaves the tally at or above the threshold, not exactly once — in
particular, an additional distinct validator's PREPARE after the threshold
was crossed emits another COMMIT message. -/
theorem C3_commit_reemitted (c : BFTConsensus) (m : ConsensusMessage)
    (hmem : m.validatorId ∈ c.validators)
    (hq : c.requiredConsensus ≤
      (insert m.validatorId (c.prepareMessages m.blockHash)).card) :
    (c.handlePrepareMessage m).2 =
      [{ type := .COMMIT, blockHeight := c.currentHeight + 1,
         blockHash := m.blockHash, validatorId := c.validatorId,
         signature := "placeholder_signature" }] := by
  unfold BFTConsensus.handlePrepareMessage BFTConsensus.verifyMessage
  simp [hmem, hq, BFTConsensus.broadcastCommit, BFTConsensus.sign]

/-- Witness for C3's amended theorem: the fourth vote after a threshold of 3
re-emits the COMMIT. -/
theorem C3_witness :
    let c0 := mkBFTConsensus "validator1"
      ["validator1", "validator2", "validator3", "validator4"]
    let c3 := (((c0.handlePrepareMessage ⟨.PREPARE, 1, "H", "validator1", "s"⟩).1.handlePrepareMessage
        ⟨.PREPARE, 1, "H", "validator2", "s"⟩).1.handlePrepareMessage
        ⟨.PREPARE, 1, "H", "validator3", "s"⟩).1
    (c3.handlePrepareMessage ⟨.PREPARE, 1, "H", "validator4", "s"⟩).2 =
      [{ type := .COMMIT, blockHeight := c3.currentHeight + 1,
         blockHash := "H", validatorId := c3.validatorId,
         signature := "placeholder_signature" }] :=
  C3_commit_reemitted _ _ (by decide) (by decide)

/-- Accepted PREPARE below threshold: nothing is emitted. -/
theorem handlePrepare_snd_below (c : BFTConsensus) (m : ConsensusMessage)
    (hlt : (insert m.validatorId (c.prepareMessages m.blockHash)).card <
      c.requiredConsensus) :
    (c.handlePrepareMessage m).2 = [] := by
  unfold BFTConsensus.handlePrepareMessage
  dsimp only
  split
  · rfl
  · rw [if_neg (Nat.not_le.mpr hlt)]

/-- A duplicate PREPARE — the sender is already in the hash's prepare set —
leaves the engine state unchanged. -/
theorem handlePrepare_dup_eq (c : BFTConsensus) (m : ConsensusMessage)
    (hdup : m.validatorId ∈ c.prepareMessages m.blockHash) :
    (c.handlePrepareMessage m).1 = c := by
  by_cases hv : m.validatorId ∈ c.validators
  · rw [handlePrepare_fst c m hv]
    have hf : (fun h =>
        if h = m.blockHash then insert m.validatorId (c.prepareMessages m.blockHash)
        else c.prepareMessages h) = c.prepareMessages := by
      funext h
      by_cases hh : h = m.blockHash
      · subst hh; simp [Finset.insert_eq_self.mpr hdup]
      · simp [hh]
    rw [hf]
  · rw [handlePrepare_not_member c m hv]

/-- Accepted COMMIT below threshold: the sender joins the hash's commit set
and nothing is emitted. -/
theorem handleCommit_below (c : BFTConsensus) (m : ConsensusMessage)
    (hv : m.validatorId ∈ c.validators)
    (hlt : (insert m.validatorId (c.commitMessages m.blockHash)).card <
      c.requiredConsensus) :
    c.handleCommitMessage m =
      ({ c with commitMessages := fun h =>
          if h = m.blockHash then insert m.validatorId (c.commitMessages m.blockHash)
          else c.commitMessages h }, []) := by
  unfold BFTConsensus.handleCommitMessage BFTConsensus.verifyMessage
  rw [decide_eq_true hv, Bool.not_true, if_neg Bool.false_ne_true]
  dsimp only
  rw [if_neg (Nat.not_le.mpr hlt)]

/-- Accepted COMMIT at or above threshold: the engine finalizes — height + 1,
both tallies cleared, NEW_ROUND for the new height + 1 broadcast. -/
theorem handleCommit_quorum (c : BFTConsensus) (m : ConsensusMessage)
    (hv : m.validatorId ∈ c.validators)
    (hq : c.requiredConsensus ≤
      (insert m.validatorId (c.commitMessages m.blockHash)).card) :
    c.handleCommitMessage m =
      ({ c with currentHeight := c.currentHeight + 1,
                prepareMessages := fun _ => ∅,
                commitMessages := fun _ => ∅ },
       [{ type := .NEW_ROUND, blockHeight := c.currentHeight + 1 + 1,
          blockHash := "", validatorId := c.validatorId, signature := "" }]) := by
  unfold BFTConsensus.handleCommitMessage BFTConsensus.verifyMessage
    BFTConsensus.finalizeBlock
  rw [decide_eq_true hv, Bool.not_true, if_neg Bool.false_ne_true]
  dsimp only
  rw [if_pos hq]

/-- Claim C5 fails on the code: a node that has finalized height 1 and then
receives `NEW_ROUND(height = 3)` clears its tallies but its tracked height
stays 1 — it does not resume at height 3. -/
theorem C5_counterexample :
    let c0 := mkBFTConsensus "v1" ["v1", "v2", "v3", "v4"]
    let c3 := (((c0.handleCommitMessage ⟨.COMMIT, 1, "H", "v1", "s"⟩).1.handleCommitMessage
        ⟨.COMMIT, 1, "H", "v2", "s"⟩).1.handleCommitMessage
        ⟨.COMMIT, 1, "H", "v3", "s"⟩).1
    let r := c3.handleConsensusMessage ⟨.NEW_ROUND, 3, "", "v1", ""⟩
    c3.currentHeight = 1 ∧ r.1.currentHeight = 1 ∧ r.1.currentHeight ≠ 3 := by decide

/-- Claim C5 amended: a NEW_ROUND message whose height strictly exceeds the
tracked current height clears both tallies, but the tracked height itself is
left unchanged — the node does not advance to the message's height. -/
theorem C5_new_round_clears_tallies_only (c : BFTConsensus) (m : ConsensusMessage)
    (ht : m.type = MessageType.NEW_ROUND) (hh : c.currentHeight < m.blockHeight) :
    (c.handleConsensusMessage m).1.prepareMessages = (fun _ => ∅) ∧
    (c.handleConsensusMessage m).1.commitMessages = (fun _ => ∅) ∧
    (c.handleConsensusMessage m).1.currentHeight = c.currentHeight ∧
    (c.handleConsensusMessage m).2 = [] := by
  have hd : c.handleConsensusMessage m = c.startNewRound m.blockHeight := by
    unfold BFTConsensus.handleConsensusMessage
    rw [ht]
  rw [hd]
  unfold BFTConsensus.startNewRound
  rw [if_neg (Nat.not_le.mpr hh)]
  exact ⟨rfl, rfl, rfl, rfl⟩

/-- Witness for C5's amended theorem: the catch-up scenario at heights 1/3. -/
theorem C5_witness :
    let c0 := mkBFTConsensus "v1" ["v1", "v2", "v3", "v4"]
    let c3 := (((c0.handleCommitMessage ⟨.COMMIT, 1, "H", "v1", "s"⟩).1.handleCommitMessage
        ⟨.COMMIT, 1, "H", "v2", "s"⟩).1.handleCommitMessage
        ⟨.COMMIT, 1, "H", "v3", "s"⟩).1
    (c3.handleConsensusMessage ⟨.NEW_ROUND, 3, "", "v1", ""⟩).1.prepareMessages = (fun _ => ∅) ∧
    (c3.handleConsensusMessage ⟨.NEW_ROUND, 3, "", "v1", ""⟩).1.commitMessages = (fun _ => ∅) ∧
    (c3.handleConsensusMessage ⟨.NEW_ROUND, 3, "", "v1", ""⟩).1.currentHeight = c3.currentHeight ∧
    (c3.handleConsensusMessage ⟨.NEW_ROUND, 3, "", "v1", ""⟩).2 = [] :=
  C5_new_round_clears_tallies_only _ _ (by decide) (by decide)

/-- Claim C6: an accepted COMMIT that brings its hash's commit set to the
threshold finalizes — the current height increases by exactly 1, every
prepare and commit tally is discarded, and a NEW_ROUND for the new height + 1
is broadcast. -/
theorem C6_finalization (c : BFTConsensus) (m : ConsensusMessage)
    (hmem : m.validatorId ∈ c.validators)
    (hq : c.requiredConsensus ≤
      (insert m.validatorId (c.commitMessages m.blockHash)).card) :
    (c.handleCommitMessage m).1.currentHeight = c.currentHeight + 1 ∧
    (c.handleCommitMessage m).1.prepareMessages = (fun _ => ∅) ∧
    (c.handleCommitMessage m).1.commitMessages = (fun _ => ∅) ∧
    (c.handleCommitMessage m).2 =
      [{ type := .NEW_ROUND,
         blockHeight := (c.handleCommitMessage m).1.currentHeight + 1,
         blockHash := "", validatorId := c.validatorId, signature := "" }] := by
  rw [handleCommit_quorum c m hmem hq]
  exact ⟨rfl, rfl, rfl, rfl⟩

/-- Witness for C6 at a concrete quorum-reaching third COMMIT (threshold 3). -/
theorem C6_witness :
    let c0 := mkBFTConsensus "v1" ["v1", "v2", "v3", "v4"]
    let c2 := ((c0.handleCommitMessage ⟨.COMMIT, 1, "H", "v1", "s"⟩).1.handleCommitMessage
        ⟨.COMMIT, 1, "H", "v2", "s"⟩).1
    (c2.handleCommitMessage ⟨.COMMIT, 1, "H", "v3", "s"⟩).1.currentHeight = c2.currentHeight + 1 ∧
    (c2.handleCommitMessage ⟨.COMMIT, 1, "H", "v3", "s"⟩).1.prepareMessages = (fun _ => ∅) ∧
    (c2.handleCommitMessage ⟨.COMMIT, 1, "H", "v3", "s"⟩).1.commitMessages = (fun _ => ∅) ∧
    (c2.handleCommitMessage ⟨.COMMIT, 1, "H", "v3", "s"⟩).2 =
      [{ type := .NEW_ROUND,
         blockHeight := (c2.handleCommitMessage ⟨.COMMIT, 1, "H", "v3", "s"⟩).1.currentHeight + 1,
         blockHash := "", validatorId := c2.validatorId, signature := "" }] :=
  C6_finalization _ _ (by decide) (by decide)

/-- Claim C7 fails on the code: a NEW_ROUND message from "intruder", who is
not in the validator set, still wipes a non-empty prepare tally — NEW_ROUND
bypasses the membership check entirely. -/
theorem C7_counterexample :
    let c0 := mkBFTConsensus "v1" ["v1", "v2", "v3", "v4"]
    let c1 := (c0.handlePrepareMessage ⟨.PREPARE, 1, "H", "v2", "s"⟩).1
    let r := c1.handleConsensusMessage ⟨.NEW_ROUND, 5, "", "intruder", "x"⟩
    "intruder" ∉ c1.validators ∧
    c1.prepareMessages "H" ≠ ∅ ∧
    r.1.prepareMessages "H" = ∅ := by decide

/-- Claim C7 amended: a PREPARE or COMMIT message from a non-member leaves
the entire engine state unchanged and emits nothing, but NEW_ROUND messages
are not membership-gated — a non-member's NEW_ROUND with height above the
current one clears both tallies. -/
theorem C7_membership_gating (c : BFTConsensus) (m : ConsensusMessage)
    (hnm : m.validatorId ∉ c.validators) :
    ((m.type = MessageType.PREPARE ∨ m.type = MessageType.COMMIT) →
      c.handleConsensusMessage m = (c, [])) ∧
    (m.type = MessageType.NEW_ROUND → c.currentHeight < m.blockHeight →
      (c.handleConsensusMessage m).1.prepareMessages = (fun _ => ∅) ∧
      (c.handleConsensusMessage m).1.commitMessages = (fun _ => ∅)) := by
  refine ⟨?_, ?_⟩
  · rintro (ht | ht)
    · have hd : c.handleConsensusMessage m = c.handlePrepareMessage m := by
        unfold BFTConsensus.handleConsensusMessage
        rw [ht]
      rw [hd, handlePrepare_not_member c m hnm]
    · have hd : c.handleConsensusMessage m = c.handleCommitMessage m := by
        unfold BFTConsensus.handleConsensusMessage
        rw [ht]
      rw [hd, handleCommit_not_member c m hnm]
  · intro ht hh
    have hd : c.handleConsensusMessage m = c.startNewRound m.blockHeight := by
      unfold BFTConsensus.handleConsensusMessage
      rw [ht]
    rw [hd]
    unfold BFTConsensus.startNewRound
    rw [if_neg (Nat.not_le.mpr hh)]
    exact ⟨rfl, rfl⟩

/-- Witness for C7's amended theorem: a non-member PREPARE is a no-op. -/
theorem C7_witness :
    let c := mkBFTConsensus "v1" ["v1", "v2", "v3", "v4"]
    c.handleConsensusMessage ⟨.PREPARE, 1, "H", "intruder", "s"⟩ = (c, []) :=
  (C7_membership_gating _ _ (by decide)).1 (Or.inl rfl)

/-- Claim C8 fails on the code: `proposeBlock` broadcasts the proposer's
PREPARE but records nothing in its own prepare tally — the tally at the
broadcast hash still has 0 distinct voters, not 1. -/
theorem C8_counterexample :
    let c := mkBFTConsensus "validator1"
      ["validator1", "validator2", "validator3", "validator4"]
    let r := c.proposeBlock [] 0
    r.2.2 = [⟨.PREPARE, 1, "placeholder_hash", "validator1", "placeholder_signature"⟩] ∧
    (r.1.prepareMessages "placeholder_hash").card = 0 := by decide

/-- Claim C8 amended: `proposeBlock` returns a block at the current height
plus 1, proposed by this node, with an empty signatures map, and broadcasts
the proposer's PREPARE message — but it leaves the engine state (including
its own prepare tally) completely unchanged; no local vote is recorded. -/
theorem C8_propose_block (c : BFTConsensus) (txs : List Transaction) (now : Nat) :
    (c.proposeBlock txs now).2.1.height = c.currentHeight + 1 ∧
    (c.proposeBlock txs now).2.1.proposer = c.validatorId ∧
    (c.proposeBlock txs now).2.1.signatures = [] ∧
    (c.proposeBlock txs now).1 = c ∧
    (c.proposeBlock txs now).2.2 =
      [{ type := .PREPARE, blockHeight := c.currentHeight + 1,
         blockHash := "placeholder_hash", validatorId := c.validatorId,
         signature := "placeholder_signature" }] :=
  ⟨rfl, rfl, rfl, rfl, rfl⟩

/-- Claim C9: vote recording is idempotent — handling the same PREPARE twice
leaves the state exactly as after the first handling (so every tally count is
unchanged), a duplicate below the threshold emits nothing, and a duplicate
COMMIT below the threshold is a complete no-op. -/
theorem C9_idempotent (c : BFTConsensus) (m : ConsensusMessage) :
    ((c.handlePrepareMessage m).1.handlePrepareMessage m).1 =
      (c.handlePrepareMessage m).1 ∧
    (((c.handlePrepareMessage m).1.prepareMessages m.blockHash).card <
        c.requiredConsensus →
      ((c.handlePrepareMessage m).1.handlePrepareMessage m).2 = []) ∧
    (m.validatorId ∈ c.commitMessages m.blockHash →
      (c.commitMessages m.blockHash).card < c.requiredConsensus →
      c.handleCommitMessage m = (c, [])) := by
  by_cases hv : m.validatorId ∈ c.validators
  · refine ⟨?_, ?_, ?_⟩
    · apply handlePrepare_dup_eq
      rw [handlePrepare_fst c m hv]
      simp
    · intro hlt
      apply handlePrepare_snd_below
      have hin : m.validatorId ∈
          (c.handlePrepareMessage m).1.prepareMessages m.blockHash := by
        rw [handlePrepare_fst c m hv]
        simp
      rw [Finset.insert_eq_self.mpr hin]
      have hrc : (c.handlePrepareMessage m).1.requiredConsensus =
          c.requiredConsensus := by
        rw [handlePrepare_fst c m hv]
      rw [hrc]
      exact hlt
    · intro hdup hlt
      rw [handleCommit_below c m hv]
      · have hf : (fun h =>
            if h = m.blockHash then insert m.validatorId (c.commitMessages m.blockHash)
            else c.commitMessages h) = c.commitMessages := by
          funext h
          by_cases hh : h = m.blockHash
          · subst hh; simp [Finset.insert_eq_self.mpr hdup]
          · simp [hh]
        rw [hf]
      · rw [Finset.insert_eq_self.mpr hdup]
        exact hlt
  · have h1 := handlePrepare_not_member c m hv
    refine ⟨?_, ?_, ?_⟩
    · rw [h1]
      dsimp only
      rw [h1]
    · intro hlt
      rw [h1]
      dsimp only
      rw [h1]
    · intro hdup hlt
      exact handleCommit_not_member c m hv

/-- Witness for C9 at a concrete duplicate vote (below the threshold of 3). -/
theorem C9_witness :
    let c0 := mkBFTConsensus "v1" ["v1", "v2", "v3", "v4"]
    let c := (c0.handleCommitMessage ⟨.COMMIT, 1, "H", "v2", "s"⟩).1
    ((c.handlePrepareMessage ⟨.COMMIT, 1, "H", "v2", "s"⟩).1.handlePrepareMessage
        ⟨.COMMIT, 1, "H", "v2", "s"⟩).1 =
      (c.handlePrepareMessage ⟨.COMMIT, 1, "H", "v2", "s"⟩).1 ∧
    ((c.handlePrepareMessage ⟨.COMMIT, 1, "H", "v2", "s"⟩).1.handlePrepareMessage
        ⟨.COMMIT, 1, "H", "v2", "s"⟩).2 = [] ∧
    c.handleCommitMessage ⟨.COMMIT, 1, "H", "v2", "s"⟩ = (c, []) := by
  refine ⟨(C9_idempotent _ _).1, (C9_idempotent _ _).2.1 (by decide),
    (C9_idempotent _ _).2.2 (by decide) (by decide)⟩

/-- Claim C10: message handling never inspects the signature field — the same
message under any two signatures produces the same state update and the same
emitted messages, so a member's message is accepted whatever its signature. -/
theorem C10_signature_blind (c : BFTConsensus) (m : ConsensusMessage)
    (s1 s2 : String) :
    c.handleConsensusMessage { m with signature := s1 } =
    c.handleConsensusMessage { m with signature := s2 } := by
  obtain ⟨t, bh, hs, v, s⟩ := m
  cases t <;> rfl
